import Mathlib

/-!
Shallow embedding of the multi-sqlite repository and proofs about its
specification claims.  The embedding covers the distributed transaction
coordinator of multi_connection_database_manager.cpp, the RAII wrapper
DistributedTransaction, the UserManager table operations of
user_manager.cpp, the getAll orderings of the three table managers, the
ProductManager stock lookup of product_manager.cpp, and the generic
SQLiteWrapper query paths of src/sqlite_wrapper.cc.
-/

namespace MultiSqlite

/-- State of MultiConnectionDatabaseManager as seen by the distributed
transaction functions.  conns records, for each of the three connections in
iteration order, whether a SQLite transaction is currently open on it;
inDistributedTransaction is the in_distributed_transaction_ flag;
transactionMutexHeld records whether transaction_mutex_ (a non recursive
std::mutex guarded with std::lock_guard) is currently held.  Acquiring a
std::mutex that the same thread already holds never returns (undefined
behaviour, in practice a self deadlock), which the embedding models by
letting the function return none. -/
structure DTState where
  conns : List Bool
  inDistributedTransaction : Bool
  transactionMutexHeld : Bool
deriving DecidableEq, Repr

/-- rollbackDistributedTransaction (multi_connection_database_manager.cpp
lines 225-239): lock transaction_mutex_; if the flag is clear return false;
otherwise issue ROLLBACK on every connection ignoring individual results,
clear the flag and return true.  Re-locking the held mutex is modelled as
divergence (none). -/
def rollbackDistributedTransaction (s : DTState) : Option (Bool × DTState) :=
  if s.transactionMutexHeld then none
  else if s.inDistributedTransaction = false then some (false, s)
  else some (true, { s with conns := s.conns.map (fun _ => false),
                            inDistributedTransaction := false })

/-- The loop of beginDistributedTransaction: issue BEGIN IMMEDIATE on each
connection in turn; ok i tells whether sqlite3_exec succeeds on connection
number i.  Success opens a transaction on that connection; the loop stops at
the first failure, leaving that connection and the later ones untouched.
Returns the connection states and whether some BEGIN failed. -/
def runBegins (ok : Nat → Bool) : Nat → List Bool → List Bool × Bool
  | _, [] => ([], false)
  | i, c :: cs =>
    if ok i then
      let r := runBegins ok (i + 1) cs
      (true :: r.1, r.2)
    else (c :: cs, true)

/-- The loop of commitDistributedTransaction: issue COMMIT on each connection
in turn; success closes the transaction on that connection; the loop stops at
the first failure. -/
def runCommits (ok : Nat → Bool) : Nat → List Bool → List Bool × Bool
  | _, [] => ([], false)
  | i, c :: cs =>
    if ok i then
      let r := runCommits ok (i + 1) cs
      (false :: r.1, r.2)
    else (c :: cs, true)

/-- beginDistributedTransaction (lines 179-200): lock transaction_mutex_; if
already in a distributed transaction return false; otherwise BEGIN IMMEDIATE
on every connection; on the first failure the code calls the public
rollbackDistributedTransaction, which re-locks the mutex the caller still
holds, hence the nested call is modelled with transactionMutexHeld set. -/
def beginDistributedTransaction (ok : Nat → Bool) (s : DTState) :
    Option (Bool × DTState) :=
  if s.transactionMutexHeld then none
  else if s.inDistributedTransaction then some (false, s)
  else
    let r := runBegins ok 0 s.conns
    if r.2 then
      match rollbackDistributedTransaction
          { s with conns := r.1, transactionMutexHeld := true } with
      | none => none
      | some (_, s2) => some (false, { s2 with transactionMutexHeld := false })
    else
      some (true, { s with conns := r.1, inDistributedTransaction := true })

/-- The control flow of beginDistributedTransaction with transaction_mutex_
treated as if it were re-entrant, so that the nested call to
rollbackDistributedTransaction runs its body instead of deadlocking.  Used to
show that even under this generous reading the rollback is a no-op: the flag
in_distributed_transaction_ is still false at that point, so the body returns
false without issuing ROLLBACK anywhere. -/
def beginIgnoringMutex (ok : Nat → Bool) (s : DTState) : Bool × DTState :=
  if s.inDistributedTransaction then (false, s)
  else
    let r := runBegins ok 0 s.conns
    if r.2 then
      if { s with conns := r.1 }.inDistributedTransaction = false then
        (false, { s with conns := r.1 })
      else
        (false, { s with conns := r.1.map (fun _ => false),
                         inDistributedTransaction := false })
    else
      (true, { s with conns := r.1, inDistributedTransaction := true })

/-- commitDistributedTransaction (lines 202-223): lock transaction_mutex_; if
no distributed transaction is active return false; otherwise COMMIT on every
connection; on the first failure the code calls the public
rollbackDistributedTransaction while still holding the mutex. -/
def commitDistributedTransaction (ok : Nat → Bool) (s : DTState) :
    Option (Bool × DTState) :=
  if s.transactionMutexHeld then none
  else if s.inDistributedTransaction = false then some (false, s)
  else
    let r := runCommits ok 0 s.conns
    if r.2 then
      match rollbackDistributedTransaction
          { s with conns := r.1, transactionMutexHeld := true } with
      | none => none
      | some (_, s2) => some (false, { s2 with transactionMutexHeld := false })
    else
      some (true, { s with conns := r.1, inDistributedTransaction := false })

/-- The RAII object DistributedTransaction (header lines 61-73): two flags,
committed_ and rolled_back_. -/
structure DTObj where
  committed : Bool
  rolledBack : Bool
deriving DecidableEq, Repr

/-- The DistributedTransaction constructor (lines 242-249): call
beginDistributedTransaction; throw when it returns false (the error value
carries the manager state at the throw), otherwise yield the fresh object. -/
def DTObj.construct (ok : Nat → Bool) (s : DTState) :
    Option (Except DTState (DTObj × DTState)) :=
  match beginDistributedTransaction ok s with
  | none => none
  | some (true, s1) => some (Except.ok (⟨false, false⟩, s1))
  | some (false, s1) => some (Except.error s1)

/-- DistributedTransaction rollback (lines 266-271): when neither flag is
set, set rolled_back_ and call the manager rollback; otherwise do nothing. -/
def DTObj.rollback (o : DTObj) (s : DTState) : Option (DTObj × DTState) :=
  if o.committed = false ∧ o.rolledBack = false then
    match rollbackDistributedTransaction s with
    | none => none
    | some (_, s1) => some ({ o with rolledBack := true }, s1)
  else some (o, s)

/-- DistributedTransaction commit (lines 257-264): once committed_ or
rolled_back_ is set return false without touching the manager; otherwise
commit through the manager and record the result in committed_. -/
def DTObj.commit (ok : Nat → Bool) (o : DTObj) (s : DTState) :
    Option (Bool × DTObj × DTState) :=
  if o.committed = true ∨ o.rolledBack = true then some (false, o, s)
  else
    match commitDistributedTransaction ok s with
    | none => none
    | some (r, s1) => some (r, { o with committed := r }, s1)

/-- The DistributedTransaction destructor (lines 251-255): if neither
committed nor rolled back explicitly, invoke rollback. -/
def DTObj.destruct (o : DTObj) (s : DTState) : Option (DTObj × DTState) :=
  if o.committed = false ∧ o.rolledBack = false then DTObj.rollback o s
  else some (o, s)

/-- The idle manager state: no transaction open on any of the three
connections, flag clear, mutex free. -/
def idleState : DTState := ⟨[false, false, false], false, false⟩

/-- The manager state with a distributed transaction active on all three
connections. -/
def activeState : DTState := ⟨[true, true, true], true, false⟩

/-- A row of the users table as created in initializeTables: id is the
AUTOINCREMENT primary key, username and email are UNIQUE NOT NULL, and the
two timestamp columns default to CURRENT_TIMESTAMP. -/
structure User where
  id : Nat
  username : String
  email : String
  createdAt : String
  updatedAt : String
deriving DecidableEq, Repr

/-- The users table: its rows in insertion (rowid) order plus the next
AUTOINCREMENT id. -/
structure UsersTable where
  rows : List User
  nextId : Nat
deriving DecidableEq, Repr

/-- Stepping the prepared INSERT INTO users (username, email) VALUES (?, ?):
username and email are UNIQUE, so the step reports SQLITE_CONSTRAINT instead
of SQLITE_DONE when either value is already present (none); otherwise the new
row is appended with the next AUTOINCREMENT id and engine supplied
timestamps, now standing for CURRENT_TIMESTAMP at the step. -/
def insertUser (t : UsersTable) (now username email : String) :
    Option UsersTable :=
  if t.rows.any (fun r => r.username == username || r.email == email) then none
  else some ⟨t.rows ++ [⟨t.nextId, username, email, now, now⟩], t.nextId + 1⟩

/-- The six prepared statement handles of UserManager: true means
sqlite3_prepare_v2 returned SQLITE_OK and the handle is non null; false means
the preparation failed and the handle stayed null. -/
structure UserStmts where
  insertStmt : Bool
  selectAllStmt : Bool
  selectByIdStmt : Bool
  selectByUsernameStmt : Bool
  updateStmt : Bool
  deleteStmt : Bool
deriving DecidableEq, Repr

/-- UserManager::prepareStatements (user_manager.cpp lines 26-52): issues the
six sqlite3_prepare_v2 calls, one per statement, and ignores every return
code; ok i tells whether the i-th prepare call succeeds. -/
def prepareStatements (ok : Fin 6 → Bool) : UserStmts :=
  ⟨ok 0, ok 1, ok 2, ok 3, ok 4, ok 5⟩

/-- The UserManager constructor (lines 14-20): initialises every handle to
null and calls prepareStatements; since prepareStatements checks nothing and
throws nothing, construction always completes normally with whatever handles
were obtained. -/
def constructUserManager (ok : Fin 6 → Bool) : Except String UserStmts :=
  Except.ok (prepareStatements ok)

/-- UserManager::createUser (lines 63-72): reset, bind twice, step the
prepared insert and return whether the step reported SQLITE_DONE.  When the
handle is null, sqlite3_reset is a harmless no-op and sqlite3_bind_text and
sqlite3_step return SQLITE_MISUSE, so the result is not SQLITE_DONE, the call
returns false and the table is untouched. -/
def createUser (m : UserStmts) (t : UsersTable) (now username email : String) :
    Bool × UsersTable :=
  if m.insertStmt = false then (false, t)
  else
    match insertUser t now username email with
    | some t1 => (true, t1)
    | none => (false, t)

/-- Whether stepping the prepared UPDATE users SET username = ?, email = ?,
updated_at = CURRENT_TIMESTAMP WHERE id = ? reports SQLITE_DONE: the step
fails with SQLITE_CONSTRAINT exactly when a row with the given id exists and
a different row already carries the new username or email (UNIQUE). -/
def updateStepDone (t : UsersTable) (id : Nat) (username email : String) :
    Bool :=
  !(t.rows.any (fun r => r.id == id)
    && t.rows.any (fun r =>
        r.id != id && (r.username == username || r.email == email)))

/-- The value of sqlite3_changes after a completed UPDATE or DELETE step with
WHERE id = ?: the number of rows whose id matches. -/
def changesFor (t : UsersTable) (id : Nat) : Nat :=
  (t.rows.filter (fun r => r.id == id)).length

/-- UserManager::updateUser (lines 129-139): reset, bind, step the prepared
UPDATE and return (result == SQLITE_DONE && sqlite3_changes > 0).  On a
constraint failure nothing changes; otherwise every row matching the id is
rewritten with the new username, email and updated_at. -/
def updateUser (t : UsersTable) (id : Nat) (now username email : String) :
    Bool × UsersTable :=
  match t.rows.find? (fun r => r.id == id) with
  | none => (false, t)
  | some _ =>
    if t.rows.any (fun r =>
        r.id != id && (r.username == username || r.email == email)) then
      (false, t)
    else
      (true, ⟨t.rows.map (fun r =>
          if r.id == id then ⟨r.id, username, email, r.createdAt, now⟩ else r),
        t.nextId⟩)

/-- UserManager::deleteUser (lines 141-149): reset, bind, step the prepared
DELETE FROM users WHERE id = ? and return
(result == SQLITE_DONE && sqlite3_changes > 0); the DELETE step always
reports SQLITE_DONE. -/
def deleteUser (t : UsersTable) (id : Nat) : Bool × UsersTable :=
  match t.rows.find? (fun r => r.id == id) with
  | none => (false, t)
  | some _ => (true, ⟨t.rows.filter (fun r => r.id != id), t.nextId⟩)

/-- The empty users table of a fresh database. -/
def emptyUsers : UsersTable := ⟨[], 1⟩

/-- A one-row users table holding alice with id 1. -/
def aliceTable : UsersTable := ⟨[⟨1, "alice", "a@x.com", "t0", "t0"⟩], 2⟩

/-- Transaction commands issued through sqlite3_exec and sqlite3_step in
UserManager::createUsersTransaction, recorded in issue order. -/
inductive SqlCmd
  | beginTx
  | commitTx
  | rollbackTx
  | insertStep (username email : String)
deriving DecidableEq, Repr

/-- The single DatabaseManager connection as createUsersTransaction uses it:
the visible users table plus, while a transaction is open, the snapshot taken
at BEGIN, to which ROLLBACK returns. -/
structure Conn where
  table : UsersTable
  tx : Option UsersTable
deriving DecidableEq, Repr

/-- sqlite3_exec BEGIN TRANSACTION: fails when a transaction is already open
on the connection, otherwise opens one whose rollback point is the current
table. -/
def execBegin (c : Conn) : Bool × Conn :=
  match c.tx with
  | some _ => (false, c)
  | none => (true, { c with tx := some c.table })

/-- sqlite3_exec ROLLBACK with the result ignored: restore the snapshot and
close the transaction; without an open transaction nothing changes. -/
def execRollback (c : Conn) : Conn :=
  match c.tx with
  | some t0 => ⟨t0, none⟩
  | none => c

/-- sqlite3_exec COMMIT: fails without an open transaction; commitOk models
an engine level failure such as SQLITE_BUSY from a competing writer, which
leaves the transaction open; on success the transaction closes, keeping the
visible table. -/
def execCommit (commitOk : Bool) (c : Conn) : Bool × Conn :=
  match c.tx with
  | none => (false, c)
  | some _ => if commitOk then (true, { c with tx := none }) else (false, c)

/-- The insert loop of createUsersTransaction (user_manager.cpp lines
163-173): reset, bind and step the prepared insert for each pair in turn; the
loop stops at the first step that does not report SQLITE_DONE.  Returns the
connection, whether every step reported DONE, and the trace of issued
steps. -/
def insertLoop (now : String) :
    Conn → List (String × String) → Conn × Bool × List SqlCmd
  | c, [] => (c, true, [])
  | c, (u, e) :: rest =>
    match insertUser c.table now u e with
    | some t1 =>
      let r := insertLoop now { c with table := t1 } rest
      (r.1, r.2.1, SqlCmd.insertStep u e :: r.2.2)
    | none => (c, false, [SqlCmd.insertStep u e])

/-- UserManager::createUsersTransaction (lines 151-184): BEGIN TRANSACTION,
returning false when it fails; the insert loop, with ROLLBACK and false on
the first failing step; then COMMIT, with ROLLBACK and false when the COMMIT
fails; true only after a successful COMMIT.  Besides the result and the
connection, the trace of issued commands is returned. -/
def createUsersTransaction (commitOk : Bool) (c : Conn) (now : String)
    (users : List (String × String)) : Bool × Conn × List SqlCmd :=
  match execBegin c with
  | (false, c1) => (false, c1, [SqlCmd.beginTx])
  | (true, c1) =>
    match insertLoop now c1 users with
    | (c2, false, tr) =>
      (false, execRollback c2,
        SqlCmd.beginTx :: (tr ++ [SqlCmd.rollbackTx]))
    | (c2, true, tr) =>
      match execCommit commitOk c2 with
      | (true, c3) =>
        (true, c3, SqlCmd.beginTx :: (tr ++ [SqlCmd.commitTx]))
      | (false, c3) =>
        (false, execRollback c3,
          SqlCmd.beginTx :: (tr ++ [SqlCmd.commitTx, SqlCmd.rollbackTx]))

/-- A batch whose second insert violates the UNIQUE username constraint. -/
def dupBatch : List (String × String) :=
  [("alice", "a@x.com"), ("alice", "b@x.com")]

/-- A row of the orders table (orders_db.db): AUTOINCREMENT id, user id,
amount, status and the two engine supplied timestamps, the creation one being
the declared sort key of getAllOrders. -/
structure Order where
  id : Nat
  userId : Nat
  totalAmount : Int
  status : String
  createdAt : Nat
  updatedAt : Nat
deriving DecidableEq, Repr

/-- A row of the products table (products_db.db). -/
structure Product where
  id : Nat
  name : String
  descr : String
  price : Int
  stockQuantity : Int
deriving DecidableEq, Repr

/-- The ORDER BY id comparison of the UserManager select_all statement. -/
def userLe (a b : User) : Prop := a.id ≤ b.id

instance : DecidableRel userLe := fun a b =>
  decidable_of_iff (a.id ≤ b.id) Iff.rfl

instance : IsTotal User userLe := ⟨fun a b => Nat.le_total a.id b.id⟩

instance : IsTrans User userLe :=
  ⟨fun _ _ _ h1 h2 => Nat.le_trans h1 h2⟩

/-- The ORDER BY created_at DESC comparison of the OrderManager select_all
statement. -/
def orderDesc (a b : Order) : Prop := b.createdAt ≤ a.createdAt

instance : DecidableRel orderDesc := fun a b =>
  decidable_of_iff (b.createdAt ≤ a.createdAt) Iff.rfl

instance : IsTotal Order orderDesc :=
  ⟨fun a b => Nat.le_total b.createdAt a.createdAt⟩

instance : IsTrans Order orderDesc :=
  ⟨fun _ _ _ h1 h2 => Nat.le_trans h2 h1⟩

/-- The ORDER BY name comparison of the ProductManager select_all
statement. -/
def productLe (a b : Product) : Prop := a.name ≤ b.name

instance : DecidableRel productLe := fun a b =>
  decidable_of_iff (a.name ≤ b.name) Iff.rfl

instance : IsTotal Product productLe := ⟨fun a b => le_total a.name b.name⟩

instance : IsTrans Product productLe :=
  ⟨fun _ _ _ h1 h2 => le_trans h1 h2⟩

/-- UserManager::getAllUsers through the prepared SELECT id, username, email,
created_at, updated_at FROM users ORDER BY id: the table rows in ascending id
order. -/
def getAllUsers (rows : List User) : List User :=
  List.insertionSort userLe rows

/-- OrderManager::getAllOrders through its prepared SELECT ... FROM orders
ORDER BY created_at DESC: the table rows in descending creation time
order. -/
def getAllOrders (rows : List Order) : List Order :=
  List.insertionSort orderDesc rows

/-- ProductManager::getAllProducts through its prepared SELECT ... FROM
products ORDER BY name: the table rows in ascending name order. -/
def getAllProducts (rows : List Product) : List Product :=
  List.insertionSort productLe rows

/-- ProductManager::getStockQuantity (product_manager.cpp lines 291-302):
reset and bind the prepared SELECT stock_quantity FROM products WHERE
id = ?; when the step yields a row return its stock_quantity column,
otherwise return -1 marking the product as absent. -/
def getStockQuantity (rows : List Product) (id : Nat) : Int :=
  match rows.find? (fun p => p.id == id) with
  | some p => p.stockQuantity
  | none => -1

/-- The accumulator of SQLiteWrapperImpl::queryCallback (QueryCallbackData):
the captured column names, the materialized rows, and additionally the
sequence of (column_names, row_values) arguments delivered to the user
callback, which the embedding records in order to compare the two query
modes. -/
structure QueryCallbackData where
  column_names : List String
  rows : List (List String)
  delivered : List (List String × List String)
deriving DecidableEq, Repr

/-- One invocation of SQLiteWrapperImpl::queryCallback (sqlite_wrapper.cc
lines 51-76) on a produced row with column names colNames and values argv.
On the first invocation the column names are captured.  The local row vector
is then moved into the accumulator with rows.push_back(std::move(row)), and
only afterwards is the same, now moved-from, vector row handed to the user
callback; a moved-from std::vector is left empty by the mainstream standard
libraries, so the callback receives the captured column names together with
an empty row vector. -/
def queryCallback (hasCallback : Bool) (d : QueryCallbackData)
    (colNames argv : List String) : QueryCallbackData :=
  let d1 := if d.rows.isEmpty && d.column_names.isEmpty then
      { d with column_names := colNames } else d
  let d2 := { d1 with rows := d1.rows ++ [argv] }
  let movedRow : List String := []
  if hasCallback then
    { d2 with delivered := d2.delivered ++ [(d2.column_names, movedRow)] }
  else d2

/-- sqlite3_exec with queryCallback: the engine invokes the callback once per
produced row; invs lists, for the given SQL text and database state, the
(column names, values) pairs of those rows in production order.  The same SQL
text against the same database state produces the same invs for both query
modes. -/
def runExec (hasCallback : Bool)
    (invs : List (List String × List String)) : QueryCallbackData :=
  invs.foldl (fun d p => queryCallback hasCallback d p.1 p.2) ⟨[], [], []⟩

/-- The materialized result returned by query: the column-name sequence and
the ordered rows of column values as text. -/
structure QueryResult where
  column_names : List String
  rows : List (List String)
deriving DecidableEq, Repr

/-- SQLiteWrapperImpl::query (lines 78-99): fail when the database is not
open or the exec reports an error (ok = false), otherwise materialize the
accumulated column names and rows.  The std::function callback member of the
accumulator is empty here, so no user callback runs. -/
def query (dbOpen : Bool) (invs : List (List String × List String))
    (ok : Bool) : Option QueryResult :=
  if dbOpen = false then none
  else if ok = false then none
  else some ⟨(runExec false invs).column_names, (runExec false invs).rows⟩

/-- SQLiteWrapperImpl::queryWithCallback (lines 101-122): the same exec with
the user callback installed; returns whether the exec succeeded together
with (in the embedding) the sequence of arguments the callback received. -/
def queryWithCallback (dbOpen : Bool)
    (invs : List (List String × List String)) (ok : Bool) :
    Bool × List (List String × List String) :=
  if dbOpen = false then (false, [])
  else (ok, (runExec true invs).delivered)

end MultiSqlite

namespace MultiSqlite

/-- The insert loop never opens or closes a transaction: the tx field of the
connection is untouched. -/
theorem insertLoop_tx (now : String) :
    ∀ (users : List (String × String)) (c : Conn),
    (insertLoop now c users).1.tx = c.tx := by
  intro users
  induction users with
  | nil => intro c; rfl
  | cons p rest ih =>
    intro c
    obtain ⟨u, e⟩ := p
    simp only [insertLoop]
    rcases h : insertUser c.table now u e with _ | t1
    · rfl
    · simpa using ih { c with table := t1 }

/-- The insert loop issues only insertStep commands: no COMMIT occurs in its
trace. -/
theorem insertLoop_no_commit (now : String) :
    ∀ (users : List (String × String)) (c : Conn),
    SqlCmd.commitTx ∉ (insertLoop now c users).2.2 := by
  intro users
  induction users with
  | nil => intro c; simp [insertLoop]
  | cons p rest ih =>
    intro c
    obtain ⟨u, e⟩ := p
    simp only [insertLoop]
    rcases h : insertUser c.table now u e with _ | t1
    · simp
    · simpa using ih { c with table := t1 }

/-- C1: the claim says that when a per-connection BEGIN fails,
beginDistributedTransaction rolls back every connection already started,
returns false and leaves no connection inside an open transaction.  The code
does not do this.  Evaluated at the concrete run in which BEGIN IMMEDIATE
succeeds on connection 0 and fails on connection 1, starting from the idle
state: (left) the call never returns, because the failure path calls the
public rollbackDistributedTransaction, which re-locks the non recursive
transaction_mutex_ that the caller still holds; (right) even with the mutex
treated as re-entrant, the rollback body sees in_distributed_transaction_
still false and returns immediately without issuing ROLLBACK, so connection 0
is left inside an open transaction and the call returns false. -/
theorem c1_begin_failure_leaves_connection_open :
    beginDistributedTransaction (fun i => decide (i = 0)) idleState = none
    ∧ beginIgnoringMutex (fun i => decide (i = 0)) idleState =
        (false, ⟨[true, false, false], false, false⟩) :=
  ⟨rfl, rfl⟩

/-- C3: the claim says that commitDistributedTransaction returns false
immediately when no distributed transaction is active (first conjunct, which
the code satisfies), and that on a per-connection COMMIT failure it issues
rollback on every connection, returns false and always terminates.  The
second part fails: evaluated at the concrete run in which a distributed
transaction is active on all three connections and COMMIT succeeds on
connection 0 but fails on connection 1, the failure path calls the public
rollbackDistributedTransaction while still holding the non recursive
transaction_mutex_, so the call never returns (modelled as none). -/
theorem c3_commit_failure_self_deadlocks :
    commitDistributedTransaction (fun _ => true) idleState =
        some (false, idleState)
    ∧ commitDistributedTransaction (fun i => decide (i = 0)) activeState =
        none :=
  ⟨rfl, rfl⟩

/-- C5: while in_distributed_transaction_ is set (and the transaction mutex
is free, i.e. the call is a fresh top level call), any further
beginDistributedTransaction returns false and changes neither the flag nor
any connection transaction state: the returned state is exactly the input
state. -/
theorem c5_second_begin_fails_without_side_effects
    (ok : Nat → Bool) (s : DTState)
    (hactive : s.inDistributedTransaction = true)
    (hfree : s.transactionMutexHeld = false) :
    beginDistributedTransaction ok s = some (false, s) := by
  simp [beginDistributedTransaction, hactive, hfree]

/-- Witness for C5 at the concrete active state. -/
theorem c5_witness :
    beginDistributedTransaction (fun _ => true) activeState =
      some (false, activeState) :=
  c5_second_begin_fails_without_side_effects (fun _ => true) activeState rfl rfl

/-- C6: the scoped DistributedTransaction object never leaves a transaction
dangling on any exit path of its scope.  First, construction throws whenever
beginDistributedTransaction reports failure.  Second, if neither commit nor
rollback was called explicitly, the destructor invokes rollback, after which
the object is terminal (rolled_back_ set) and the manager is no longer inside
a distributed transaction.  Third, once the object is committed or rolled
back it is terminal: any further commit call returns false and leaves both
the object and the manager state unchanged. -/
theorem c6_scoped_transaction_never_dangling :
    (∀ (ok : Nat → Bool) (s s1 : DTState),
        beginDistributedTransaction ok s = some (false, s1) →
        DTObj.construct ok s = some (Except.error s1))
    ∧ (∀ (o : DTObj) (s : DTState),
        o.committed = false → o.rolledBack = false →
        s.transactionMutexHeld = false →
        ∃ s1, DTObj.destruct o s = some (⟨false, true⟩, s1)
          ∧ s1.inDistributedTransaction = false)
    ∧ (∀ (ok : Nat → Bool) (o : DTObj) (s : DTState),
        o.committed = true ∨ o.rolledBack = true →
        DTObj.commit ok o s = some (false, o, s)) := by
  refine ⟨?_, ?_, ?_⟩
  · intro ok s s1 h
    simp [DTObj.construct, h]
  · intro o s hc hr hfree
    obtain ⟨co, ro⟩ := o
    simp only at hc hr
    subst hc; subst hr
    by_cases hd : s.inDistributedTransaction = false
    · refine ⟨s, ?_, hd⟩
      simp [DTObj.destruct, DTObj.rollback, rollbackDistributedTransaction,
        hfree, hd]
    · refine ⟨⟨s.conns.map (fun _ => false), false, s.transactionMutexHeld⟩,
        ?_, rfl⟩
      simp [DTObj.destruct, DTObj.rollback, rollbackDistributedTransaction,
        hfree, hd]
  · intro ok o s h
    rcases h with h | h <;> simp [DTObj.commit, h]

/-- Witness for C6 at concrete inputs: a construction attempt while a
transaction is already active throws; destroying a never finalized object in
the active state rolls the manager back; commit on an already committed
object reports false and changes nothing. -/
theorem c6_witness :
    DTObj.construct (fun _ => true) activeState = some (Except.error activeState)
    ∧ (∃ s1, DTObj.destruct ⟨false, false⟩ activeState = some (⟨false, true⟩, s1)
        ∧ s1.inDistributedTransaction = false)
    ∧ DTObj.commit (fun _ => true) ⟨true, false⟩ idleState =
        some (false, ⟨true, false⟩, idleState) :=
  ⟨c6_scoped_transaction_never_dangling.1 (fun _ => true) activeState activeState rfl,
   c6_scoped_transaction_never_dangling.2.1 ⟨false, false⟩ activeState rfl rfl rfl,
   c6_scoped_transaction_never_dangling.2.2 (fun _ => true) ⟨true, false⟩ idleState
     (Or.inl rfl)⟩

/-- C4 counterexample: the claim says that when compiling any of the SQL
statements fails during construction, construction fails and the error
propagates immediately.  Evaluated at the concrete input where every
sqlite3_prepare_v2 call fails: the insert statement handle is indeed null,
yet the constructor still returns a manager normally, and no error value can
ever be produced, because prepareStatements ignores all six return codes. -/
theorem c4_counterexample :
    (prepareStatements (fun _ => false)).insertStmt = false
    ∧ constructUserManager (fun _ => false) =
        Except.ok (prepareStatements (fun _ => false))
    ∧ ∀ e, constructUserManager (fun _ => false) ≠ Except.error e := by
  refine ⟨rfl, rfl, ?_⟩
  intro e h
  simp [constructUserManager] at h

/-- C4 amended: prepare failures during construction are silently ignored,
so the handle stays null and construction completes normally; any subsequent
bind/step against the null statement fails safely: createUser returns false
and leaves the table exactly as it was, because sqlite3_bind and sqlite3_step
report SQLITE_MISUSE on a null handle instead of corrupting state. -/
theorem c4_prepare_failure_ignored_but_fails_safely
    (ok : Fin 6 → Bool) (t : UsersTable) (now username email : String)
    (hnull : (prepareStatements ok).insertStmt = false) :
    constructUserManager ok = Except.ok (prepareStatements ok)
    ∧ createUser (prepareStatements ok) t now username email = (false, t) :=
  ⟨rfl, by simp [createUser, hnull]⟩

/-- Witness for the amended C4 at the all-prepares-fail input and the empty
table. -/
theorem c4_witness :
    constructUserManager (fun _ => false) =
      Except.ok (prepareStatements (fun _ => false))
    ∧ createUser (prepareStatements (fun _ => false)) emptyUsers "t0"
        "alice" "a@x.com" = (false, emptyUsers) :=
  c4_prepare_failure_ignored_but_fails_safely (fun _ => false) emptyUsers
    "t0" "alice" "a@x.com" rfl

/-- The success bit of updateUser: a matching row exists and no other row
collides with the new unique values. -/
theorem updateUser_fst (t : UsersTable) (id : Nat) (now username email : String) :
    (updateUser t id now username email).1 =
      (t.rows.any (fun r => r.id == id)
        && !(t.rows.any (fun r =>
            r.id != id && (r.username == username || r.email == email)))) := by
  unfold updateUser
  rcases hf : t.rows.find? (fun r => r.id == id) with _ | r
  · have hA : t.rows.any (fun r => r.id == id) = false := by
      rw [List.any_eq_false]
      intro r hr
      simpa using List.find?_eq_none.mp hf r hr
    rw [hf, hA]
    simp
  · have hmem : r ∈ t.rows := List.mem_of_find?_eq_some hf
    have hp := List.find?_some hf
    have hA : t.rows.any (fun r => r.id == id) = true :=
      List.any_eq_true.mpr ⟨r, hmem, hp⟩
    rw [hf, hA]
    by_cases hB : t.rows.any (fun r =>
        r.id != id && (r.username == username || r.email == email)) = true
    · rw [hB]; simp
    · rw [Bool.not_eq_true] at hB
      rw [hB]; simp

/-- The success bit of deleteUser: a matching row exists. -/
theorem deleteUser_fst (t : UsersTable) (id : Nat) :
    (deleteUser t id).1 = t.rows.any (fun r => r.id == id) := by
  unfold deleteUser
  rcases hf : t.rows.find? (fun r => r.id == id) with _ | r
  · have hA : t.rows.any (fun r => r.id == id) = false := by
      rw [List.any_eq_false]
      intro r hr
      simpa using List.find?_eq_none.mp hf r hr
    rw [hf, hA]
  · have hmem : r ∈ t.rows := List.mem_of_find?_eq_some hf
    have hp := List.find?_some hf
    have hA : t.rows.any (fun r => r.id == id) = true :=
      List.any_eq_true.mpr ⟨r, hmem, hp⟩
    rw [hf, hA]

/-- The affected row count is positive exactly when a row matches the id. -/
theorem one_le_changesFor (t : UsersTable) (id : Nat) :
    (1 ≤ changesFor t id) ↔ t.rows.any (fun r => r.id == id) = true := by
  unfold changesFor
  constructor
  · intro h
    rcases hne : t.rows.filter (fun r => r.id == id) with _ | ⟨a, rest⟩
    · rw [hne] at h
      simp at h
    · have ha : a ∈ t.rows.filter (fun r => r.id == id) := by
        rw [hne]
        exact List.mem_cons_self a rest
      have hm := List.mem_filter.mp ha
      exact List.any_eq_true.mpr ⟨a, hm.1, hm.2⟩
  · intro h
    obtain ⟨a, ha, hc⟩ := List.any_eq_true.mp h
    have hm : a ∈ t.rows.filter (fun r => r.id == id) :=
      List.mem_filter.mpr ⟨ha, hc⟩
    exact List.length_pos.mpr (List.ne_nil_of_mem hm)

/-- C7: updateUser and deleteUser return true exactly when the step reported
SQLITE_DONE and sqlite3_changes is at least one after it; in particular, when
no row carries the requested id, both return false even though no engine
error occurred. -/
theorem c7_update_delete_require_affected_rows
    (t : UsersTable) (id : Nat) (now username email : String) :
    ((updateUser t id now username email).1 = true ↔
      updateStepDone t id username email = true ∧ 1 ≤ changesFor t id)
    ∧ ((deleteUser t id).1 = true ↔ 1 ≤ changesFor t id)
    ∧ ((∀ r ∈ t.rows, r.id ≠ id) →
        (updateUser t id now username email).1 = false
        ∧ (deleteUser t id).1 = false) := by
  refine ⟨?_, ?_, ?_⟩
  · rw [updateUser_fst, one_le_changesFor]
    unfold updateStepDone
    cases hA : t.rows.any (fun r => r.id == id) <;>
      cases hB : t.rows.any (fun r =>
        r.id != id && (r.username == username || r.email == email)) <;>
      simp [hA, hB]
  · rw [deleteUser_fst, one_le_changesFor]
  · intro habs
    have hA : t.rows.any (fun r => r.id == id) = false := by
      rw [List.any_eq_false]
      intro r hr
      simpa using habs r hr
    rw [updateUser_fst, deleteUser_fst, hA]
    simp

/-- Witness for C7: on the one-row table holding only alice with id 1, both
updateUser and deleteUser for the absent id 2 report false. -/
theorem c7_witness :
    (updateUser aliceTable 2 "t1" "bob" "b@x.com").1 = false
    ∧ (deleteUser aliceTable 2).1 = false :=
  (c7_update_delete_require_affected_rows aliceTable 2 "t1" "bob"
    "b@x.com").2.2 (by decide)

/-- C2 counterexample: the claim states that whenever every insert succeeds,
the call returns true.  In the concrete run on the empty table with the
single pair (alice, a@x.com) and a failing COMMIT (for instance SQLITE_BUSY
from a competing writer), the insert loop reports every step done (first
conjunct), yet the call ends in ROLLBACK and returns false (second
conjunct). -/
theorem c2_counterexample :
    (insertLoop "t0" ⟨emptyUsers, some emptyUsers⟩
        [("alice", "a@x.com")]).2.1 = true
    ∧ createUsersTransaction false ⟨emptyUsers, none⟩ "t0"
        [("alice", "a@x.com")] =
      (false, ⟨emptyUsers, none⟩,
        [SqlCmd.beginTx, SqlCmd.insertStep "alice" "a@x.com",
         SqlCmd.commitTx, SqlCmd.rollbackTx]) :=
  ⟨rfl, rfl⟩

/-- C2 amended: starting from a connection with no open transaction, if some
insert step fails, createUsersTransaction stops at that step, issues
ROLLBACK, returns false and restores the table to its pre-call contents
(first conjunct: the trace is BEGIN, the steps up to and including the first
failure, ROLLBACK, and the final connection carries the original table); if
every insert succeeds, exactly one COMMIT is issued, the call returns true
precisely when that COMMIT succeeds, a failing COMMIT is followed by ROLLBACK
restoring the original table, and a successful COMMIT persists all inserted
rows. -/
theorem c2_batch_rollback_on_failure_single_commit_on_success
    (commitOk : Bool) (c : Conn) (now : String)
    (users : List (String × String))
    (hidle : c.tx = none) (_hne : users ≠ []) :
    ((insertLoop now ⟨c.table, some c.table⟩ users).2.1 = false →
      createUsersTransaction commitOk c now users =
        (false, ⟨c.table, none⟩,
          SqlCmd.beginTx ::
            ((insertLoop now ⟨c.table, some c.table⟩ users).2.2
              ++ [SqlCmd.rollbackTx])))
    ∧ ((insertLoop now ⟨c.table, some c.table⟩ users).2.1 = true →
      (createUsersTransaction commitOk c now users).2.2.count
          SqlCmd.commitTx = 1
      ∧ (createUsersTransaction commitOk c now users).1 = commitOk
      ∧ (commitOk = false →
          (createUsersTransaction commitOk c now users).2.1 =
            ⟨c.table, none⟩)
      ∧ (commitOk = true →
          (createUsersTransaction commitOk c now users).2.1 =
            ⟨(insertLoop now ⟨c.table, some c.table⟩ users).1.table,
              none⟩)) := by
  obtain ⟨tbl, tx⟩ := c
  simp only at hidle ⊢
  subst hidle
  rcases hloop : insertLoop now ⟨tbl, some tbl⟩ users with ⟨c2, ok2, tr⟩
  have htx : c2.tx = some tbl := by
    have h := insertLoop_tx now users ⟨tbl, some tbl⟩
    rw [hloop] at h
    exact h
  have hnc : SqlCmd.commitTx ∉ tr := by
    have h := insertLoop_no_commit now users ⟨tbl, some tbl⟩
    rw [hloop] at h
    exact h
  have hcz : tr.count SqlCmd.commitTx = 0 := List.count_eq_zero.mpr hnc
  obtain ⟨t2, tx2⟩ := c2
  simp only at htx
  subst htx
  cases ok2 with
  | false =>
    refine ⟨fun _ => ?_, fun h => absurd h (by simp)⟩
    unfold createUsersTransaction
    simp only [execBegin]
    rw [hloop]
    rfl
  | true =>
    refine ⟨fun h => absurd h (by simp), fun _ => ?_⟩
    unfold createUsersTransaction
    simp only [execBegin]
    rw [hloop]
    cases commitOk with
    | false =>
      refine ⟨?_, rfl, fun _ => rfl, fun h => Bool.noConfusion h⟩
      simp [execCommit, List.count_cons, List.count_append, hcz]
    | true =>
      refine ⟨?_, rfl, fun h => Bool.noConfusion h, fun _ => rfl⟩
      simp [execCommit, List.count_cons, List.count_append, hcz]

/-- Witness for the amended C2: on the empty table, the batch whose second
insert repeats the username alice fails at step two, rolls back and leaves
the table empty. -/
theorem c2_witness :
    createUsersTransaction true ⟨emptyUsers, none⟩ "t0" dupBatch =
      (false, ⟨emptyUsers, none⟩,
        SqlCmd.beginTx ::
          ((insertLoop "t0" ⟨emptyUsers, some emptyUsers⟩ dupBatch).2.2
            ++ [SqlCmd.rollbackTx])) :=
  (c2_batch_rollback_on_failure_single_commit_on_success true
    ⟨emptyUsers, none⟩ "t0" dupBatch rfl (by simp [dupBatch])).1 rfl

/-- C8: every getAll returns the table contents (a permutation of the rows)
in the declared sort order of its prepared statement: users by id ascending,
orders by created_at descending, products by name ascending.  Determinism
across repeated calls with no intervening writes is definitional here, since
each getAll is a function of the table state; it is stated as the equality of
two separate evaluations. -/
theorem c8_getAll_declared_sort_order
    (us : List User) (os : List Order) (ps : List Product) :
    List.Sorted userLe (getAllUsers us)
    ∧ List.Perm (getAllUsers us) us
    ∧ getAllUsers us = getAllUsers us
    ∧ List.Sorted orderDesc (getAllOrders os)
    ∧ List.Perm (getAllOrders os) os
    ∧ getAllOrders os = getAllOrders os
    ∧ List.Sorted productLe (getAllProducts ps)
    ∧ List.Perm (getAllProducts ps) ps
    ∧ getAllProducts ps = getAllProducts ps :=
  ⟨List.sorted_insertionSort userLe us, List.perm_insertionSort userLe us,
   rfl,
   List.sorted_insertionSort orderDesc os,
   List.perm_insertionSort orderDesc os, rfl,
   List.sorted_insertionSort productLe ps,
   List.perm_insertionSort productLe ps, rfl⟩

/-- C9: the two query modes of the wrapper succeed together (first conjunct,
which holds), but on success the rows delivered to the callback do NOT equal
the materialized rows: queryCallback moves the row vector into the
accumulator before invoking the callback, so the callback receives an empty
row.  Evaluated at the concrete one-row result with column c and value x:
query materializes the row x while the callback is handed an empty row
vector, so the delivered row values differ from the materialized rows. -/
theorem c9_callback_receives_moved_from_row :
    (∀ (dbOpen : Bool) (invs : List (List String × List String)) (ok : Bool),
      (query dbOpen invs ok).isSome = (queryWithCallback dbOpen invs ok).1)
    ∧ query true [(["c"], ["x"])] true = some ⟨["c"], [["x"]]⟩
    ∧ queryWithCallback true [(["c"], ["x"])] true = (true, [(["c"], [])])
    ∧ (queryWithCallback true [(["c"], ["x"])] true).2.map Prod.snd ≠
        [["x"]] := by
  refine ⟨?_, rfl, rfl, by decide⟩
  intro dbOpen invs ok
  cases dbOpen <;> cases ok <;> simp [query, queryWithCallback]

/-- C10: getStockQuantity returns -1, not 0, when no product row carries the
requested id, so callers can tell an absent product from one whose stock is
zero; for an existing id (ids are unique, being the primary key) it returns
the stored stock_quantity. -/
theorem c10_stock_absent_is_minus_one (rows : List Product) (id : Nat) :
    ((∀ p ∈ rows, p.id ≠ id) → getStockQuantity rows id = -1)
    ∧ (∀ p ∈ rows, p.id = id →
        rows.Pairwise (fun a b => a.id ≠ b.id) →
        getStockQuantity rows id = p.stockQuantity)
    ∧ (-1 : Int) ≠ 0 := by
  refine ⟨?_, ?_, by decide⟩
  · intro habs
    unfold getStockQuantity
    have hf : rows.find? (fun p => p.id == id) = none := by
      rw [List.find?_eq_none]
      intro p hp
      simpa using habs p hp
    rw [hf]
  · intro p hp hpid hpw
    unfold getStockQuantity
    rcases hf : rows.find? (fun q => q.id == id) with _ | q
    · exfalso
      have h := List.find?_eq_none.mp hf p hp
      simp [hpid] at h
    · rw [hf]
      have hqmem : q ∈ rows := List.mem_of_find?_eq_some hf
      have hq := List.find?_some hf
      have hqid : q.id = id := by simpa using hq
      by_cases hpq : q = p
      · rw [hpq]
      · exfalso
        have hsymm : Symmetric (fun a b : Product => a.id ≠ b.id) :=
          fun a b h e => h e.symm
        exact hpw.forall hsymm hqmem hp hpq (hqid.trans hpid.symm)

/-- Witness for C10: on a one-product table (id 1, stock 7), the absent id 2
yields -1 and the present id 1 yields the stored stock 7. -/
theorem c10_witness :
    getStockQuantity [⟨1, "widget", "d", 5, 7⟩] 2 = -1
    ∧ getStockQuantity [⟨1, "widget", "d", 5, 7⟩] 1 = 7 :=
  ⟨(c10_stock_absent_is_minus_one [⟨1, "widget", "d", 5, 7⟩] 2).1 (by decide),
   (c10_stock_absent_is_minus_one [⟨1, "widget", "d", 5, 7⟩] 1).2.1
     ⟨1, "widget", "d", 5, 7⟩ (by simp) rfl (by simp)⟩

end MultiSqlite
